import Mathlib

/-!
Verification development for the `gcGroupbyExtension` pandas accessor
(`src/gcGroupbyExtension/__init__.py`).

The accessor class `GroupByPipedTransforms` is embedded shallowly:

* Cell and label values are the inductive `Value` (Python ints as `Value.num`,
  strings as `Value.str`, `pd.Timestamp` as `Value.time` in integer
  nanoseconds since the epoch, `pd.Timedelta` as `Value.dur` in nanoseconds,
  float NaN as `Value.nan`, tuples as `Value.pair`).
* A pandas `DataFrame` is a `DataFrame`: a typed row axis plus a list of
  named, typed columns.
* Python exceptions are rendered in the `Except PdError` monad; code that
  mutates a frame in place and may raise is rendered as a function returning
  the final state paired with an `Option PdError`.
* External pandas capabilities that the accessor calls (`pd.concat`, axis
  label assignment, `pd.MultiIndex.from_tuples`, `pd.to_datetime`,
  `json.dumps`, string formatting of scalars) are modelled by explicit
  executable functions, documented at their definitions.
-/

deriving instance DecidableEq for Except

/-- A scalar (or tuple) value as it occurs in cells, axis labels and group
keys: Python `int` (`num`), `str` (`str`), `pd.Timestamp` (`time`, integer
nanoseconds since the Unix epoch), `pd.Timedelta` (`dur`, integer
nanoseconds), float NaN (`nan`) and tuples (`pair`). -/
inductive Value where
  | num (n : Int)
  | str (s : String)
  | time (t : Int)
  | dur (d : Int)
  | nan
  | pair (a b : Value)
deriving DecidableEq

instance : Inhabited Value := ⟨Value.nan⟩

/-- The concrete Python type of a value, as `type(...)` sees it. -/
inductive PyType where
  | intT
  | strT
  | timestampT
  | timedeltaT
  | floatT
  | tupleT
deriving DecidableEq

/-- Model of Python `type(v)`. -/
def Value.pyType : Value → PyType
  | .num _ => .intT
  | .str _ => .strT
  | .time _ => .timestampT
  | .dur _ => .timedeltaT
  | .nan => .floatT
  | .pair _ _ => .tupleT

/-- Model of Python `isinstance(v, int)`. -/
def Value.isInt : Value → Bool
  | .num _ => true
  | _ => false

def Value.isStr : Value → Bool
  | .str _ => true
  | _ => false

def Value.isTime : Value → Bool
  | .time _ => true
  | _ => false

/-- The integer payload of a scalar value (used only where the constructor
is already known). -/
def Value.toInt : Value → Int
  | .num n => n
  | .time t => t
  | .dur d => d
  | _ => 0

/-- Model of Python `==` between values as pandas evaluates it: values of
equal concrete type compare structurally, and a `Timestamp` additionally
compares equal to the plain integer holding its nanosecond offset (the
loosely-typed cross-type equality that the source's comment at `_getIdxFrom`
guards against). NaN is equal to nothing. -/
def looseEq : Value → Value → Bool
  | .num a, .num b => a == b
  | .str a, .str b => a == b
  | .time a, .time b => a == b
  | .dur a, .dur b => a == b
  | .time a, .num b => a == b
  | .num a, .time b => a == b
  | .pair a b, .pair c d => looseEq a c && looseEq b d
  | _, _ => false

/-- Model of Python `idx in idxList` under `looseEq`. -/
def looseMem (idx : Value) (l : List Value) : Bool :=
  l.any (fun v => looseEq v idx)

/-- Model of Python `list(idxList).index(idx)`: position of the first element
comparing loosely equal to `idx`. On a list with no match Python raises
`ValueError`; the only call site is guarded by `idx in idxList`, so the
out-of-list result (the list's length) is never observed. -/
def looseIndexOf : List Value → Value → Nat
  | [], _ => 0
  | v :: vs, idx => if looseEq v idx then 0 else looseIndexOf vs idx + 1

/-- Model of `type(a) == type(b)`. -/
def sameType (a b : Value) : Bool :=
  a.pyType == b.pyType

/-- Elementwise subtraction as pandas defines it on the modelled scalar
types: int − int = int, Timestamp − Timestamp = Timedelta,
Timestamp − Timedelta = Timestamp, Timedelta − Timedelta = Timedelta; any
other combination is modelled as NaN. -/
def vsub : Value → Value → Value
  | .num a, .num b => .num (a - b)
  | .time a, .time b => .dur (a - b)
  | .time a, .dur b => .time (a - b)
  | .dur a, .dur b => .dur (a - b)
  | _, _ => .nan

/-- Elementwise addition on the modelled scalar types. -/
def vadd : Value → Value → Value
  | .num a, .num b => .num (a + b)
  | .time a, .dur b => .time (a + b)
  | .dur a, .time b => .time (a + b)
  | .dur a, .dur b => .dur (a + b)
  | _, _ => .nan

/-- Elementwise multiplication on the modelled scalar types. -/
def vmul : Value → Value → Value
  | .num a, .num b => .num (a * b)
  | _, _ => .nan

/-- Elementwise division on the modelled scalar types. Numeric cells are
modelled as integers, so division is modelled as integer division, with NaN
for a zero divisor. -/
def vdiv : Value → Value → Value
  | .num a, .num b => if b == 0 then .nan else .num (a / b)
  | _, _ => .nan

/-- Model of `pd.to_datetime` applied elementwise to an array of offsets:
a Timedelta or a plain integer is reinterpreted as the Timestamp lying that
many nanoseconds after the epoch; a Timestamp passes through. -/
def toDatetime : Value → Value
  | .dur d => .time d
  | .num n => .time n
  | .time t => .time t
  | _ => .nan

/-- Model of Python `str(v)` / f-string formatting of the modelled scalars.
The renderings of `Timestamp` and `Timedelta` stand in for pandas' own. -/
def Value.fmt : Value → String
  | .num n => toString n
  | .str s => s
  | .time t => "Timestamp(" ++ toString t ++ "ns)"
  | .dur d => "Timedelta(" ++ toString d ++ "ns)"
  | .nan => "nan"
  | .pair a b => "(" ++ a.fmt ++ ", " ++ b.fmt ++ ")"

/-- Model of `pd.Timestamp.isoformat` (external); an injective textual
rendering of the timestamp. -/
def Value.isoformat : Value → String
  | .time t => "iso(" ++ toString t ++ ")"
  | v => v.fmt

/-- The dtype of a pandas array: numeric (`np.number`), text, `datetime64`,
`timedelta64`, or generic object. -/
inductive DType where
  | numericD
  | textD
  | timeD
  | durD
  | objectD
deriving DecidableEq

/-- The Python exceptions the embedded code can raise. -/
inductive PdError where
  | typeError (msg : String)
  | valueError (msg : String)
  | indexError (msg : String)
deriving DecidableEq

/-- One named, typed column of a frame. -/
structure Column where
  name : Value
  dtype : DType
  cells : List Value
deriving DecidableEq

instance : Inhabited Column := ⟨⟨Value.nan, DType.objectD, []⟩⟩

/-- A pandas DataFrame: a typed row axis (the index) and a list of columns.
Column names are assumed unique (spec invariant); every column is expected
to have one cell per index entry. -/
structure DataFrame where
  indexDType : DType
  index : List Value
  cols : List Column
deriving DecidableEq

instance : Inhabited DataFrame := ⟨⟨DType.objectD, [], []⟩⟩

/-- Model of positional indexing `l[pos]` / `.iloc[pos]` with Python's
negative-offset convention; out of range raises `IndexError`. -/
def ilocGet {α : Type} [Inhabited α] (l : List α) (pos : Int) : Except PdError α :=
  let n : Int := Int.ofNat l.length
  let j : Int := if pos < 0 then pos + n else pos
  if 0 ≤ j && j < n then .ok (l.getD j.toNat default)
  else .error (.indexError "single positional indexer is out-of-bounds")

/-- Map a fallible function over a list, stopping at the first raised
exception (the order in which Python evaluates and raises). -/
def mapExcept {α β : Type} (f : α → Except PdError β) : List α → Except PdError (List β)
  | [] => .ok []
  | a :: as =>
    match f a with
    | .error e => .error e
    | .ok b =>
      match mapExcept f as with
      | .error e => .error e
      | .ok bs => .ok (b :: bs)

/-- Concatenation of the lists produced by `f`, in order. -/
def flatMapL {α β : Type} (f : α → List β) : List α → List β
  | [] => []
  | a :: as => f a ++ flatMapL f as

/-- Boolean membership by structural equality. -/
def memB (v : Value) : List Value → Bool
  | [] => false
  | x :: xs => decide (x = v) || memB v xs

/-- Position of the first structurally equal element. -/
def firstPos : List Value → Value → Option Nat
  | [], _ => none
  | x :: xs, v => if x = v then some 0 else (firstPos xs v).map (· + 1)

/-- The wrapped state: either a plain frame or the result of a `groupby`
call — a keyed sequence of per-group frames in iteration order. -/
inductive PdObject where
  | single (df : DataFrame)
  | grouped (groups : List (Value × DataFrame))

/-- State of a `GroupByPipedTransforms` accessor instance: the wrapped
object `_obj` and the accumulated pipeline `_pipedFunctions`. Pipeline
entries are unary frame transforms that may raise, rendered in
`Except PdError`. -/
structure GroupByPipedTransforms where
  _obj : PdObject
  _pipedFunctions : List (DataFrame → Except PdError DataFrame)

namespace GroupByPipedTransforms

/-- `_pipe(*funcs)`: `lambda x: reduce(lambda f, g: g(f), list(funcs), x)`. -/
def _pipe {α : Type} (funcs : List (α → α)) : α → α :=
  fun x => funcs.foldl (fun f g => g f) x

/-- `_pipe` over fallible transforms: the same left fold, with a raised
exception short-circuiting the remaining applications. -/
def _pipeE (funcs : List (DataFrame → Except PdError DataFrame)) :
    DataFrame → Except PdError DataFrame :=
  fun x => funcs.foldl (fun f g => Except.bind f g) (Except.ok x)

/-- `_validatePipelineObject(obj)`: raises `TypeError` unless the wrapped
object is a groupby result. -/
def _validatePipelineObject : PdObject → Option PdError
  | .grouped _ => none
  | .single _ =>
    some (.typeError "A groupby operation has to be applied before a pipeline can be executed.")

/-- The dtype of `index - index[pos]`: datetime64 subtraction produces
timedelta64; a numeric axis stays numeric. -/
def subIndexDType : DType → DType
  | .timeD => .durD
  | d => d

/-- `df.set_index(keys=...)` with a fresh label array: returns a copy of the
frame with the new row axis. -/
def setIndexKeys (df : DataFrame) (newIndex : List Value) (d : DType) : DataFrame :=
  { df with index := newIndex, indexDType := d }

/-- `_resetIndex(df, resetPosition=0, handleFuture=True)`: re-base the row
axis so the entry at `resetPosition` becomes the origin. Python defaults
(`resetPosition=0`, `handleFuture=True`) are passed explicitly at call
sites. -/
def _resetIndex (df : DataFrame) (resetPosition : Int) (handleFuture : Bool) :
    Except PdError DataFrame :=
  let isIndexTimeType := df.indexDType == DType.timeD
  match ilocGet df.index resetPosition with
  | .error e => .error e
  | .ok ref =>
    let newIndex := df.index.map (fun x => vsub x ref)
    if isIndexTimeType && handleFuture then
      .ok (setIndexKeys df (newIndex.map toDatetime) DType.timeD)
    else
      .ok (setIndexKeys df newIndex (subIndexDType df.indexDType))

/-- `_getIdxFrom(idx, idxList, axis)`: resolve a selector to a position.
The final `else: raise ValueError` branch of the source is unreachable
(`isinstance(idx, int)` is the negation of the branch before it), so after
the two guards `idx` is known to be an int and its value is returned. -/
def _getIdxFrom (idx : Value) (idxList : List Value) (axis : String) : Except PdError Int :=
  if looseMem idx idxList && sameType idx (idxList.headD Value.nan) then
    .ok (Int.ofNat (looseIndexOf idxList idx))
  else if !idx.isInt then
    .error (.typeError (idx.fmt ++ " is not a valid " ++
      (if axis == "index" then "index" else "columns") ++ " identifier."))
  else
    .ok idx.toInt

/-- `lambda x: x - x.iloc[pos]` / `+` / `*` / `/`, dispatched on the
operation name (the name is already validated at the call site). -/
def valOp (operation : String) (x ref : Value) : Value :=
  if operation == "subtract" then vsub x ref
  else if operation == "add" then vadd x ref
  else if operation == "multiply" then vmul x ref
  else vdiv x ref

/-- The names of the numeric columns: `df.select_dtypes(include=[np.number]).columns`. -/
def numericColNames (df : DataFrame) : List Value :=
  (df.cols.filter (fun c => c.dtype == DType.numericD)).map (fun c => c.name)

/-- The numeric columns themselves. -/
def numericCols (df : DataFrame) : List Column :=
  df.cols.filter (fun c => c.dtype == DType.numericD)

/-- One column's share of `df.loc[:, numericCols].apply(func, axis='index')`:
a numeric column is transformed cellwise against its own cell at `pos`, any
other column passes through. -/
def execOneCol (operation : String) (pos : Int) (c : Column) : Except PdError Column :=
  if c.dtype == DType.numericD then
    match ilocGet c.cells pos with
    | .error e => .error e
    | .ok ref => .ok { c with cells := c.cells.map (fun x => valOp operation x ref) }
  else .ok c

/-- `df.loc[:, numericCols].apply(func, axis='index')`: apply
`x - x.iloc[pos]` (etc.) to every numeric column, leaving the rest alone;
the first exception raised inside `apply` propagates before any write-back. -/
def applyAlongIndex (operation : String) (pos : Int) :
    List Column → Except PdError (List Column)
  | [] => .ok []
  | c :: cs =>
    match execOneCol operation pos c with
    | .error e => .error e
    | .ok c2 =>
      match applyAlongIndex operation pos cs with
      | .error e => .error e
      | .ok cs2 => .ok (c2 :: cs2)

/-- `_execute(df, index=0, column=None, operation="subtract")`: apply a
frame-wide arithmetic operation against a reference row (or, when `column`
is given, a reference numeric column). The frame is mutated in place by the
final `df.loc[:, numericCols] = ...` assignment, so the result is the final
frame state paired with the exception raised, if any: on an exception the
frame is the unmodified input. Python defaults are passed explicitly at
call sites. -/
def _execute (df : DataFrame) (index : Value) (column : Option Value)
    (operation : String) : DataFrame × Option PdError :=
  let posE :=
    match column with
    | none => _getIdxFrom index df.index "index"
    | some c => _getIdxFrom c (numericColNames df) "columns"
  match posE with
  | .error e => (df, some e)
  | .ok pos =>
    if operation == "subtract" || operation == "add" ||
        operation == "multiply" || operation == "divide" then
      match column with
      | none =>
        match applyAlongIndex operation pos df.cols with
        | .error e => (df, some e)
        | .ok cols2 => ({ df with cols := cols2 }, none)
      | some _ =>
        match ilocGet (numericCols df) pos with
        | .error e => (df, some e)
        | .ok refCol =>
          ({ df with cols := df.cols.map (fun c =>
              if c.dtype == DType.numericD then
                { c with cells := List.zipWith (fun x r => valOp operation x r) c.cells refCol.cells }
              else c) }, none)
    else
      (df, some (.valueError "The provided operation to perform is not of subtract/add/multiply/divide"))

end GroupByPipedTransforms

/-- Cell of column `cells` (indexed by `idx`) at row label `lab`: the cell at
the first structurally matching position, NaN when the label is absent
(pandas alignment fill). -/
def lookupCellByLabel (idx : List Value) (cells : List Value) (lab : Value) : Value :=
  match firstPos idx lab with
  | some i => cells.getD i Value.nan
  | none => Value.nan

/-- Union of label lists in first-appearance order (model of the label
union pandas alignment computes; duplicate labels inside one list are kept). -/
def dedupUnion (ls : List (List Value)) : List Value :=
  ls.foldl (fun acc l => acc ++ l.filter (fun v => !memB v acc)) []

/-- Model of `pd.concat(tables, axis=1)` (external): columns of all tables
side by side in order, rows aligned on the union of the row labels with NaN
fill. The result's index dtype is taken from the first table. -/
def concatAxis1 (ts : List DataFrame) : DataFrame :=
  let newIndex := dedupUnion (ts.map (fun t => t.index))
  { indexDType := (ts.headD default).indexDType
    index := newIndex
    cols := flatMapL (fun t => t.cols.map (fun c =>
      { c with cells := newIndex.map (fun lab => lookupCellByLabel t.index c.cells lab) })) ts }

/-- First column of `t` named `n`. -/
def findColByName (t : DataFrame) (n : Value) : Option Column :=
  t.cols.find? (fun c => decide (c.name = n))

/-- Model of `pd.concat(tables, axis=0)` (external): rows of all tables
stacked in order, columns aligned on the union of the column names with NaN
fill. -/
def concatAxis0 (ts : List DataFrame) : DataFrame :=
  let newColNames := dedupUnion (ts.map (fun t => t.cols.map (fun c => c.name)))
  { indexDType := (ts.headD default).indexDType
    index := flatMapL (fun t => t.index) ts
    cols := newColNames.map (fun n =>
      { name := n
        dtype := ((ts.filterMap (fun t => findColByName t n)).headD default).dtype
        cells := flatMapL (fun t =>
          match findColByName t n with
          | some c => c.cells
          | none => t.index.map (fun _ => Value.nan)) ts }) }

/-- Model of `pd.concat` (external): raises `ValueError` on an empty input
sequence, otherwise concatenates along the requested axis. -/
def pdConcat (ts : List DataFrame) (axis : Nat) : Except PdError DataFrame :=
  match ts with
  | [] => .error (.valueError "No objects to concatenate")
  | _ =>
    if axis == 1 then .ok (concatAxis1 ts)
    else if axis == 0 then .ok (concatAxis0 ts)
    else .error (.valueError "No axis named")

/-- Model of `pd.MultiIndex.from_tuples` (external): raises `TypeError` on
an empty tuple list, otherwise the labels are the tuples themselves. -/
def multiIndexFromTuples (ts : List Value) : Except PdError (List Value) :=
  match ts with
  | [] => .error (.typeError "Cannot infer number of levels from empty list")
  | _ => .ok ts

/-- Model of the pandas column-label assignment `df.columns = names`
(external): raises `ValueError` when the lengths disagree, otherwise
replaces the column names positionally. -/
def setColumns (df : DataFrame) (names : List Value) : Except PdError DataFrame :=
  if names.length == df.cols.length then
    .ok { df with cols := List.zipWith (fun c n => { c with name := n }) df.cols names }
  else .error (.valueError "Length mismatch on columns assignment")

/-- The dtype pandas infers for a fresh label array. -/
def labelDType (names : List Value) : DType :=
  if names.all Value.isStr then DType.textD else DType.objectD

/-- Model of the pandas row-label assignment `df.index = names` (external):
raises `ValueError` when the lengths disagree, otherwise replaces the row
labels. -/
def setIndexLabels (df : DataFrame) (names : List Value) : Except PdError DataFrame :=
  if names.length == df.index.length then
    .ok { df with index := names, indexDType := labelDType names }
  else .error (.valueError "Length mismatch on index assignment")

namespace GroupByPipedTransforms

/-- The flat joined column labels of `concat(multiIndex='join', axis=1)`:
for each group `(G, t)` of the wrapped grouping, in iteration order, and
each column label `y` of `t`, the string produced by the source's
f-string, `str(y) ++ sep ++ str(G)`. -/
def joinNamesCols (groups : List (Value × DataFrame)) (sep : String) : List Value :=
  flatMapL (fun g => g.2.cols.map (fun c => Value.str (c.name.fmt ++ sep ++ g.1.fmt))) groups

/-- The two-level column labels of `concat(multiIndex='hierarchy', axis=1)`:
the tuple `(G, y)` for each group `(G, t)` and column label `y` of `t`. -/
def hierNamesCols (groups : List (Value × DataFrame)) : List Value :=
  flatMapL (fun g => g.2.cols.map (fun c => Value.pair g.1 c.name)) groups

/-- The flat joined row labels of `concat(multiIndex='join', axis=0)`. -/
def joinNamesIndex (groups : List (Value × DataFrame)) (sep : String) : List Value :=
  flatMapL (fun g => g.2.index.map (fun y => Value.str (y.fmt ++ sep ++ g.1.fmt))) groups

/-- The two-level row labels of `concat(multiIndex='hierarchy', axis=0)`. -/
def hierNamesIndex (groups : List (Value × DataFrame)) : List Value :=
  flatMapL (fun g => g.2.index.map (fun y => Value.pair g.1 y)) groups

/-- The four conditional relabeling blocks of `concat`, applied to the
concatenated frame. The labels are computed by iterating the wrapped
grouping `self._obj` again, so they come from the original per-group
frames, not from the pipeline outputs. A falsy `multiIndex` (or an axis
with no matching block) leaves the frame as concatenated. -/
def relabelConcat (c : DataFrame) (groups : List (Value × DataFrame))
    (multiIndex : String) (sep : String) (axis : Nat) : Except PdError DataFrame :=
  if axis == 1 && multiIndex == "join" then
    setColumns c (joinNamesCols groups sep)
  else if axis == 1 && multiIndex == "hierarchy" then
    match multiIndexFromTuples (hierNamesCols groups) with
    | .error e => .error e
    | .ok names => setColumns c names
  else if axis == 0 && multiIndex == "join" then
    setIndexLabels c (joinNamesIndex groups sep)
  else if axis == 0 && multiIndex == "hierarchy" then
    match multiIndexFromTuples (hierNamesIndex groups) with
    | .error e => .error e
    | .ok names => setIndexLabels c names
  else .ok c

/-- `pipe(*functions)`: extend the accumulated pipeline, in order. -/
def pipe (w : GroupByPipedTransforms)
    (functions : List (DataFrame → Except PdError DataFrame)) : GroupByPipedTransforms :=
  { w with _pipedFunctions := w._pipedFunctions ++ functions }

/-- The `pipeline` property: `self._pipe(*self._pipedFunctions)`, the
accumulated transforms composed first-registered-first-applied. -/
def pipeline (w : GroupByPipedTransforms) : DataFrame → Except PdError DataFrame :=
  _pipeE w._pipedFunctions

/-- `concat(multiIndex='hierarchy', sep='|', axis=1)`: validate that the
wrapped object is a grouping, apply the composed pipeline to every group in
iteration order, concatenate the results along `axis`, relabel that axis
according to `multiIndex`, and clear the accumulated pipeline. The result
is the accessor state after the call paired with the outcome; a raise at
any point leaves the state untouched (in particular the pipeline is cleared
only on success). -/
def concat (w : GroupByPipedTransforms) (multiIndex : String) (sep : String)
    (axis : Nat) : GroupByPipedTransforms × Except PdError DataFrame :=
  match _validatePipelineObject w._obj with
  | some e => (w, .error e)
  | none =>
    match w._obj with
    | .single _ => (w, .error (.typeError "unreachable: validated above"))
    | .grouped groups =>
      match mapExcept (fun g => w.pipeline g.2) groups with
      | .error e => (w, .error e)
      | .ok tables =>
        match pdConcat tables axis with
        | .error e => (w, .error e)
        | .ok concatenated =>
          match relabelConcat concatenated groups multiIndex sep axis with
          | .error e => (w, .error e)
          | .ok final => ({ w with _pipedFunctions := [] }, .ok final)

/-- Turn the in-place-mutation rendering of `_execute` into the raising
function shape a pipeline entry has. -/
def execToExcept (p : DataFrame × Option PdError) : Except PdError DataFrame :=
  match p.2 with
  | some e => .error e
  | none => .ok p.1

/-- `subtract(index=0, column=None)`: register an `_execute` step. -/
def subtract (w : GroupByPipedTransforms) (index : Value) (column : Option Value) :
    GroupByPipedTransforms :=
  w.pipe [fun x => execToExcept (_execute x index column "subtract")]

/-- `add(index=0, column=None)`: register an `_execute` step. -/
def add (w : GroupByPipedTransforms) (index : Value) (column : Option Value) :
    GroupByPipedTransforms :=
  w.pipe [fun x => execToExcept (_execute x index column "add")]

/-- `multiply(index=0, column=None)`: register an `_execute` step. -/
def multiply (w : GroupByPipedTransforms) (index : Value) (column : Option Value) :
    GroupByPipedTransforms :=
  w.pipe [fun x => execToExcept (_execute x index column "multiply")]

/-- `divide(index=0, column=None)`: register an `_execute` step. -/
def divide (w : GroupByPipedTransforms) (index : Value) (column : Option Value) :
    GroupByPipedTransforms :=
  w.pipe [fun x => execToExcept (_execute x index column "divide")]

/-- `resetStartingValues()`: shorthand for a subtract step against row
position 0. -/
def resetStartingValues (w : GroupByPipedTransforms) : GroupByPipedTransforms :=
  w.pipe [fun x => execToExcept (_execute x (Value.num 0) none "subtract")]

/-- `resetIndex(handleFuture=True)`: registers `self._resetIndex` itself as
the pipeline step. The source never forwards its `handleFuture` argument,
so the registered unary function is `_resetIndex` with its own defaults
`resetPosition=0, handleFuture=True`. -/
def resetIndex (w : GroupByPipedTransforms) (handleFuture : Bool) : GroupByPipedTransforms :=
  w.pipe [fun x => _resetIndex x 0 true]

/-- `df.to_dict(orient="records")` (external): one association list per row,
column order preserved. -/
def toRecords (df : DataFrame) : List (List (Value × Value)) :=
  (List.range df.index.length).map (fun i =>
    df.cols.map (fun c => (c.name, c.cells.getD i Value.nan)))

/-- Model of `json.dumps` for one scalar field value. -/
def jsonValue : Value → String
  | .num n => toString n
  | .str s => "\"" ++ s ++ "\""
  | .nan => "NaN"
  | v => "\"" ++ v.fmt ++ "\""

/-- Model of `json.dumps` for one record. -/
def jsonRecord (r : List (Value × Value)) : String :=
  "\x7b" ++ String.intercalate ", "
    (r.map (fun kv => "\"" ++ kv.1.fmt ++ "\": " ++ jsonValue kv.2)) ++ "\x7d"

/-- Model of `json.dumps` for the record list. -/
def jsonDumps (rs : List (List (Value × Value))) : String :=
  "[" ++ String.intercalate ", " (rs.map jsonRecord) ++ "]"

/-- `toJSON(fileName, rowIndicesFieldName='idx_', addMultiIndexWithSep='|')`:
reassemble via `concat` (join mode when the separator is truthy), convert to
records, optionally inject each row's original label rendered as text, and
serialize the envelope. The text written to `fileName` is returned instead
of performing I/O; the accessor state after the call is returned alongside. -/
def toJSON (w : GroupByPipedTransforms) (fileName : String)
    (rowIndicesFieldName : String) (addMultiIndexWithSep : String) (axis : Nat) :
    GroupByPipedTransforms × Except PdError String :=
  let mi := if addMultiIndexWithSep ≠ "" then "join" else ""
  match w.concat mi addMultiIndexWithSep axis with
  | (w2, .error e) => (w2, .error e)
  | (w2, .ok concatenated) =>
    let dictToExport := toRecords concatenated
    let isIndexTimeType := concatenated.indexDType == DType.timeD
    let finalRecords :=
      if rowIndicesFieldName ≠ "" then
        List.zipWith (fun rec idxv => rec ++
          [(Value.str rowIndicesFieldName,
            Value.str (if isIndexTimeType then idxv.isoformat else idxv.fmt))])
          dictToExport concatenated.index
      else dictToExport
    (w2, .ok ("\x7b\"data\": " ++ jsonDumps finalRecords ++ "\x7d"))

end GroupByPipedTransforms

/-- The spec's manual left-to-right application: `f_n(...f_2(f_1(x)))`,
first-registered first-applied. -/
def applyInOrder {α : Type} : List (α → α) → α → α
  | [], x => x
  | f :: fs, x => applyInOrder fs (f x)

/-- Whether a fallible computation succeeded. -/
def isOkB {β : Type} (r : Except PdError β) : Bool :=
  match r with
  | .ok _ => true
  | .error _ => false

/-- The successful result, or a fallback. -/
def getOkD {β : Type} (r : Except PdError β) (d : β) : β :=
  match r with
  | .ok x => x
  | .error _ => d

theorem ilocGet_zero {α : Type} [Inhabited α] (x : α) (xs : List α) :
    ilocGet (x :: xs) 0 = .ok x := by
  simp [ilocGet]

theorem looseIndexOf_spec (l : List Value) (idx : Value) (h : looseMem idx l = true) :
    looseIndexOf l idx < l.length ∧
    looseEq (l.getD (looseIndexOf l idx) Value.nan) idx = true ∧
    ∀ j, j < looseIndexOf l idx → looseEq (l.getD j Value.nan) idx = false := by
  induction l with
  | nil => simp [looseMem] at h
  | cons v vs ih =>
    by_cases hv : looseEq v idx = true
    · refine ⟨by simp [looseIndexOf, hv], by simp [looseIndexOf, hv], ?_⟩
      intro j hj
      simp [looseIndexOf, hv] at hj
    · have hmem : looseMem idx vs = true := by
        simp [looseMem, List.any] at h ⊢
        rcases h with h | h
        · exact absurd h hv
        · exact h
      obtain ⟨h1, h2, h3⟩ := ih hmem
      have hv' : looseEq v idx = false := by
        cases hb : looseEq v idx
        · rfl
        · exact absurd hb hv
      refine ⟨?_, ?_, ?_⟩
      · simpa [looseIndexOf, hv'] using Nat.succ_lt_succ h1
      · simpa [looseIndexOf, hv'] using h2
      · intro j hj
        cases j with
        | zero => simpa using hv'
        | succ j =>
          have : j < looseIndexOf vs idx := by
            simp [looseIndexOf, hv'] at hj
            omega
          simpa using h3 j this

/-- C1: for every sequence of unary functions registered via `pipe`, in that
order, and every input `x`, the composed pipeline `_pipe` applied to `x`
equals the left-to-right application `f_n(...f_2(f_1(x)))`, and the empty
pipeline composes to the identity. -/
theorem c1_pipe_is_in_order_application {α : Type} (fs : List (α → α)) (x : α) :
    GroupByPipedTransforms._pipe fs x = applyInOrder fs x ∧
    GroupByPipedTransforms._pipe ([] : List (α → α)) x = x := by
  constructor
  · induction fs generalizing x with
    | nil => rfl
    | cons f fs ih =>
      simpa [GroupByPipedTransforms._pipe, applyInOrder, List.foldl] using ih (f x)
  · rfl

/-- C4: on a non-empty axis value list, the resolver `_getIdxFrom`
(a) returns the first loosely-matching position when the selector occurs in
the axis values and has the same concrete type as the first axis value,
(b) raises a `TypeError` naming the selector when that same-type match fails
and the selector is not an integer, and
(c) returns an integer selector unchanged as an ordinal position when the
same-type match fails. -/
theorem c4_getIdxFrom_resolution (idx : Value) (idxList : List Value) (axis : String)
    (hne : idxList ≠ []) :
    (looseMem idx idxList = true →
      sameType idx (idxList.headD Value.nan) = true →
      ∃ p : Nat, GroupByPipedTransforms._getIdxFrom idx idxList axis = .ok (Int.ofNat p) ∧
        p < idxList.length ∧
        looseEq (idxList.getD p Value.nan) idx = true ∧
        ∀ j, j < p → looseEq (idxList.getD j Value.nan) idx = false) ∧
    ((looseMem idx idxList = false ∨ sameType idx (idxList.headD Value.nan) = false) →
      idx.isInt = false →
      GroupByPipedTransforms._getIdxFrom idx idxList axis =
        .error (.typeError (idx.fmt ++ " is not a valid " ++
          (if axis == "index" then "index" else "columns") ++ " identifier."))) ∧
    (∀ n : Int, idx = Value.num n →
      (looseMem idx idxList = false ∨ sameType idx (idxList.headD Value.nan) = false) →
      GroupByPipedTransforms._getIdxFrom idx idxList axis = .ok n) := by
  refine ⟨?_, ?_, ?_⟩
  · intro hmem hty
    refine ⟨looseIndexOf idxList idx, ?_, looseIndexOf_spec idxList idx hmem⟩
    have hcond : (looseMem idx idxList && sameType idx (idxList.headD Value.nan)) = true := by
      rw [hmem, hty]; rfl
    simp only [GroupByPipedTransforms._getIdxFrom, hcond]
    rfl
  · intro hfail hint
    have hcond : (looseMem idx idxList && sameType idx (idxList.headD Value.nan)) = false := by
      rcases hfail with h | h <;> rw [h] <;> simp
    simp only [GroupByPipedTransforms._getIdxFrom, hcond]
    simp [hint]
  · intro n hn hfail
    have hcond : (looseMem idx idxList && sameType idx (idxList.headD Value.nan)) = false := by
      rcases hfail with h | h <;> rw [h] <;> simp
    subst hn
    simp only [GroupByPipedTransforms._getIdxFrom, hcond]
    simp [Value.isInt, Value.toInt]

/-- Witness for C4 at concrete inputs: a same-typed integer selector found
at position 1 resolves there; a missing string selector raises the naming
`TypeError`; a missing integer selector is returned as an ordinal position. -/
theorem c4_witness :
    (∃ p : Nat,
      GroupByPipedTransforms._getIdxFrom (Value.num 20)
        [Value.num 10, Value.num 20, Value.num 30] "index" = .ok (Int.ofNat p) ∧
      p < [Value.num 10, Value.num 20, Value.num 30].length ∧
      looseEq ([Value.num 10, Value.num 20, Value.num 30].getD p Value.nan) (Value.num 20) = true ∧
      ∀ j, j < p →
        looseEq ([Value.num 10, Value.num 20, Value.num 30].getD j Value.nan) (Value.num 20) = false) ∧
    GroupByPipedTransforms._getIdxFrom (Value.str "zz") [Value.num 10] "index" =
      .error (.typeError ((Value.str "zz").fmt ++ " is not a valid " ++
        (if "index" == "index" then "index" else "columns") ++ " identifier.")) ∧
    GroupByPipedTransforms._getIdxFrom (Value.num 7) [Value.num 10] "index" = .ok 7 := by
  refine ⟨?_, ?_, ?_⟩
  · exact (c4_getIdxFrom_resolution (Value.num 20)
      [Value.num 10, Value.num 20, Value.num 30] "index" (by decide)).1 (by decide) (by decide)
  · exact (c4_getIdxFrom_resolution (Value.str "zz") [Value.num 10] "index"
      (by decide)).2.1 (by decide) (by decide)
  · exact (c4_getIdxFrom_resolution (Value.num 7) [Value.num 10] "index"
      (by decide)).2.2 7 rfl (by decide)

theorem listMapCongr {α β : Type} {f g : α → β} :
    ∀ (l : List α), (∀ a ∈ l, f a = g a) → l.map f = l.map g
  | [], _ => rfl
  | a :: as, h => by
    simp only [List.map]
    exact congrArg₂ (· :: ·) (h a (by simp)) (listMapCongr as (fun b hb => h b (by simp [hb])))

/-- Example frame with a numeric row axis. -/
def dfNumEx : DataFrame := ⟨DType.numericD, [Value.num 3, Value.num 10], []⟩

/-- Example frame with a time-like row axis: 5 and 7 nanoseconds after the
epoch. -/
def dfTimeEx : DataFrame := ⟨DType.timeD, [Value.time 5, Value.time 7], []⟩

/-- C2 (amended): after `_resetIndex` with reference position 0, a numeric
axis becomes `original[i] - original[0]` with 0 at the reference position;
a time-like axis becomes the offsets reinterpreted as absolute times,
`epoch + (original[i] - original[0])`, so the reference entry becomes the
epoch timestamp `Value.time 0`, not the original time value. -/
theorem c2_resetIndex_rebased (df : DataFrame) (h0 : df.index ≠ []) :
    (df.indexDType = DType.numericD → df.index.all Value.isInt = true →
      ∃ df2, GroupByPipedTransforms._resetIndex df 0 true = .ok df2 ∧
        df2.index = df.index.map
          (fun v => Value.num (v.toInt - (df.index.headD Value.nan).toInt)) ∧
        df2.index.headD Value.nan = Value.num 0) ∧
    (df.indexDType = DType.timeD → df.index.all Value.isTime = true →
      ∃ df2, GroupByPipedTransforms._resetIndex df 0 true = .ok df2 ∧
        df2.index = df.index.map
          (fun v => Value.time (v.toInt - (df.index.headD Value.nan).toInt)) ∧
        df2.index.headD Value.nan = Value.time 0) := by
  obtain ⟨x, xs, hidx⟩ := List.exists_cons_of_ne_nil h0
  have hiloc : ilocGet df.index 0 = .ok x := by rw [hidx]; exact ilocGet_zero x xs
  constructor
  · intro hD hall
    rw [List.all_eq_true] at hall
    have hx : Value.isInt x = true := hall x (by rw [hidx]; simp)
    obtain ⟨b, rfl⟩ : ∃ b, x = Value.num b := by
      cases x <;> simp [Value.isInt] at hx; exact ⟨_, rfl⟩
    have hhead : df.index.headD Value.nan = Value.num b := by rw [hidx]; rfl
    refine ⟨GroupByPipedTransforms.setIndexKeys df (df.index.map (fun v => vsub v (Value.num b)))
      (GroupByPipedTransforms.subIndexDType df.indexDType), ?_, ?_, ?_⟩
    · simp only [GroupByPipedTransforms._resetIndex, hiloc, hD]
      rfl
    · simp only [GroupByPipedTransforms.setIndexKeys, hhead]
      refine listMapCongr df.index (fun v hv => ?_)
      have hvi := hall v hv
      obtain ⟨a, rfl⟩ : ∃ a, v = Value.num a := by
        cases v <;> simp [Value.isInt] at hvi; exact ⟨_, rfl⟩
      simp [vsub, Value.toInt]
    · simp only [GroupByPipedTransforms.setIndexKeys, hidx, List.map, List.headD]
      simp [vsub]
  · intro hD hall
    rw [List.all_eq_true] at hall
    have hx : Value.isTime x = true := hall x (by rw [hidx]; simp)
    obtain ⟨b, rfl⟩ : ∃ b, x = Value.time b := by
      cases x <;> simp [Value.isTime] at hx; exact ⟨_, rfl⟩
    have hhead : df.index.headD Value.nan = Value.time b := by rw [hidx]; rfl
    refine ⟨GroupByPipedTransforms.setIndexKeys df ((df.index.map (fun v => vsub v (Value.time b))).map toDatetime)
      DType.timeD, ?_, ?_, ?_⟩
    · simp only [GroupByPipedTransforms._resetIndex, hiloc, hD]
      rfl
    · simp only [GroupByPipedTransforms.setIndexKeys, List.map_map, hhead]
      refine listMapCongr df.index (fun v hv => ?_)
      have hvi := hall v hv
      obtain ⟨a, rfl⟩ : ∃ a, v = Value.time a := by
        cases v <;> simp [Value.isTime] at hvi; exact ⟨_, rfl⟩
      simp [vsub, toDatetime, Value.toInt]
    · simp only [GroupByPipedTransforms.setIndexKeys, hidx, List.map, List.headD]
      simp [vsub, toDatetime]

/-- Counterexample for C2 as stated: on the time-like axis
`[epoch+5ns, epoch+7ns]`, `_resetIndex` with reference position 0 (source
defaults) produces the axis `[epoch, epoch+2ns]`. The entry at the reference
position is the epoch timestamp `Value.time 0`, not the original time value
`Value.time 5` unchanged, and the axis is not the raw subtraction offsets
`original[i] - original[0]` (which would be the Timedeltas
`[Value.dur 0, Value.dur 2]`). -/
theorem c2_counterexample :
    GroupByPipedTransforms._resetIndex dfTimeEx 0 true =
      .ok ⟨DType.timeD, [Value.time 0, Value.time 2], []⟩ ∧
    dfTimeEx.index.headD Value.nan = Value.time 5 ∧
    Value.time 0 ≠ Value.time 5 ∧
    [Value.time 0, Value.time 2] ≠
      [vsub (Value.time 5) (Value.time 5), vsub (Value.time 7) (Value.time 5)] := by
  decide

/-- Witness for C2 (amended) at the concrete frames `dfNumEx` and
`dfTimeEx`. -/
theorem c2_witness :
    (∃ df2, GroupByPipedTransforms._resetIndex dfNumEx 0 true = .ok df2 ∧
      df2.index = dfNumEx.index.map
        (fun v => Value.num (v.toInt - (dfNumEx.index.headD Value.nan).toInt)) ∧
      df2.index.headD Value.nan = Value.num 0) ∧
    (∃ df2, GroupByPipedTransforms._resetIndex dfTimeEx 0 true = .ok df2 ∧
      df2.index = dfTimeEx.index.map
        (fun v => Value.time (v.toInt - (dfTimeEx.index.headD Value.nan).toInt)) ∧
      df2.index.headD Value.nan = Value.time 0) := by
  constructor
  · exact (c2_resetIndex_rebased dfNumEx (by decide)).1 rfl (by decide)
  · exact (c2_resetIndex_rebased dfTimeEx (by decide)).2 rfl (by decide)

/-- Wrapper holding the example time-indexed frame, with an empty pipeline. -/
def wTimeEx : GroupByPipedTransforms := ⟨PdObject.single dfTimeEx, []⟩

/-- C7: the claim describes the intended semantics of
`resetIndex(handleFuture=...)`, but the method registers `self._resetIndex`
without forwarding its `handleFuture` argument, so the registered step always
runs with `_resetIndex`'s own default `handleFuture=True`. Evaluated at the
failing input: after `resetIndex(handleFuture=False)` on a time-like axis the
registered step still reinterprets the offsets into absolute times
(`[Value.time 0, Value.time 2]`), whereas `_resetIndex` itself with
`handleFuture=False` — the behavior the claim describes — yields the raw
Timedelta offsets `[Value.dur 0, Value.dur 2]`. -/
theorem c7_resetIndex_drops_handleFuture :
    GroupByPipedTransforms._pipeE
        ((wTimeEx.resetIndex false)._pipedFunctions) dfTimeEx =
      .ok ⟨DType.timeD, [Value.time 0, Value.time 2], []⟩ ∧
    GroupByPipedTransforms._resetIndex dfTimeEx 0 false =
      .ok ⟨DType.durD, [Value.dur 0, Value.dur 2], []⟩ ∧
    DType.timeD ≠ DType.durD := by
  refine ⟨by decide, by decide, by decide⟩

/-- C8: with a resolvable selector (row-based or column-based), `_execute`
with an operation name outside subtract/add/multiply/divide raises the
`ValueError` and returns the frame's data entirely unchanged — the error is
raised before the write-back assignment, so the first component of the
result is the input frame itself. -/
theorem c8_invalid_operation (df : DataFrame) (index : Value) (col : Value)
    (operation : String) (p q : Int)
    (hrow : GroupByPipedTransforms._getIdxFrom index df.index "index" = .ok p)
    (hcol : GroupByPipedTransforms._getIdxFrom col
      (GroupByPipedTransforms.numericColNames df) "columns" = .ok q)
    (h1 : operation ≠ "subtract") (h2 : operation ≠ "add")
    (h3 : operation ≠ "multiply") (h4 : operation ≠ "divide") :
    GroupByPipedTransforms._execute df index none operation =
      (df, some (.valueError
        "The provided operation to perform is not of subtract/add/multiply/divide")) ∧
    GroupByPipedTransforms._execute df index (some col) operation =
      (df, some (.valueError
        "The provided operation to perform is not of subtract/add/multiply/divide")) := by
  have hop : (operation == "subtract" || operation == "add" ||
      operation == "multiply" || operation == "divide") = false := by
    simp [h1, h2, h3, h4]
  constructor
  · simp only [GroupByPipedTransforms._execute, hrow, hop]
    rfl
  · simp only [GroupByPipedTransforms._execute, hcol, hop]
    rfl

/-- Example frame with one numeric and one text column over a numeric index. -/
def dfMixEx : DataFrame :=
  ⟨DType.numericD, [Value.num 10, Value.num 20],
    [⟨Value.str "A", DType.numericD, [Value.num 3, Value.num 10]⟩,
     ⟨Value.str "B", DType.textD, [Value.str "x", Value.str "y"]⟩]⟩

/-- Witness for C8 at the concrete frame `dfMixEx`, selector `0` (row) and
`"A"` (column), operation `"mod"`. -/
theorem c8_witness :
    GroupByPipedTransforms._execute dfMixEx (Value.num 0) none "mod" =
      (dfMixEx, some (.valueError
        "The provided operation to perform is not of subtract/add/multiply/divide")) ∧
    GroupByPipedTransforms._execute dfMixEx (Value.num 0) (some (Value.str "A")) "mod" =
      (dfMixEx, some (.valueError
        "The provided operation to perform is not of subtract/add/multiply/divide")) :=
  c8_invalid_operation dfMixEx (Value.num 0) (Value.str "A") "mod" 0 0
    (by decide) (by decide) (by decide) (by decide) (by decide) (by decide)

theorem applyAlongIndexOkMap (op : String) (pos : Int) (g : Column → Column) :
    ∀ (cs : List Column),
      (∀ c ∈ cs, GroupByPipedTransforms.execOneCol op pos c = .ok (g c)) →
      GroupByPipedTransforms.applyAlongIndex op pos cs = .ok (cs.map g)
  | [], _ => rfl
  | c :: cs, h => by
    have hc := h c (by simp)
    have ih := applyAlongIndexOkMap op pos g cs (fun d hd => h d (by simp [hd]))
    simp only [GroupByPipedTransforms.applyAlongIndex, hc, ih, List.map]

/-- The claim's per-column description of `subtract` against row position 0:
a numeric column is rebased cellwise by its own first cell, any other column
is unchanged. -/
def subtractRebaseCol (c : Column) : Column :=
  if c.dtype == DType.numericD then
    { c with cells := c.cells.map (fun v =>
        Value.num (v.toInt - (c.cells.headD Value.nan).toInt)) }
  else c

/-- C9: when the reference row resolves to position 0, `_execute` with the
subtract operation raises nothing and replaces exactly the numeric columns,
each cell `original[i,c]` becoming `original[i,c] - original[0,c]`; the cell
of every numeric column at row 0 becomes exactly 0, and non-numeric columns
pass through unmodified (`subtractRebaseCol` is the identity on them). -/
theorem c9_subtract_zeroes_reference_row (df : DataFrame)
    (hpos : GroupByPipedTransforms._getIdxFrom (Value.num 0) df.index "index" = .ok 0)
    (hlen : ∀ c ∈ df.cols, c.cells.length = df.index.length)
    (hnum : ∀ c ∈ df.cols, c.dtype = DType.numericD → c.cells.all Value.isInt = true)
    (h0 : df.index ≠ []) :
    GroupByPipedTransforms._execute df (Value.num 0) none "subtract" =
      ({ df with cols := df.cols.map subtractRebaseCol }, none) ∧
    ∀ c ∈ df.cols, c.dtype = DType.numericD →
      (subtractRebaseCol c).cells.headD Value.nan = Value.num 0 := by
  have hcells : ∀ c ∈ df.cols, c.cells ≠ [] := by
    intro c hc
    have := hlen c hc
    intro hnil
    rw [hnil] at this
    exact h0 (List.eq_nil_of_length_eq_zero this.symm)
  have hpoint : ∀ c ∈ df.cols,
      GroupByPipedTransforms.execOneCol "subtract" 0 c = .ok (subtractRebaseCol c) := by
    intro c hc
    by_cases hd : c.dtype = DType.numericD
    · obtain ⟨x, xs, hx⟩ := List.exists_cons_of_ne_nil (hcells c hc)
      have hall := hnum c hc hd
      rw [List.all_eq_true] at hall
      have hxint : Value.isInt x = true := hall x (by rw [hx]; simp)
      obtain ⟨b, rfl⟩ : ∃ b, x = Value.num b := by
        cases x <;> simp [Value.isInt] at hxint; exact ⟨_, rfl⟩
      have hiloc : ilocGet c.cells 0 = .ok (Value.num b) := by
        rw [hx]; exact ilocGet_zero _ xs
      have hhead : c.cells.headD Value.nan = Value.num b := by rw [hx]; rfl
      have hdb : (c.dtype == DType.numericD) = true := by rw [hd]; rfl
      simp only [GroupByPipedTransforms.execOneCol, hdb, hiloc, if_true]
      simp only [subtractRebaseCol, hdb, if_true]
      refine congrArg Except.ok ?_
      refine congrArg (fun l => { c with cells := l }) ?_
      rw [hhead]
      refine listMapCongr c.cells (fun v hv => ?_)
      have hvi := hall v hv
      obtain ⟨a, rfl⟩ : ∃ a, v = Value.num a := by
        cases v <;> simp [Value.isInt] at hvi; exact ⟨_, rfl⟩
      simp [GroupByPipedTransforms.valOp, vsub, Value.toInt]
    · have hdb : (c.dtype == DType.numericD) = false := by
        cases hb : (c.dtype == DType.numericD)
        · rfl
        · exact absurd (by simpa using hb) hd
      simp only [GroupByPipedTransforms.execOneCol, hdb, Bool.false_eq_true, if_false]
      simp only [subtractRebaseCol, hdb, Bool.false_eq_true, if_false]
  constructor
  · have happly := applyAlongIndexOkMap "subtract" 0 subtractRebaseCol df.cols hpoint
    simp only [GroupByPipedTransforms._execute, hpos, happly]
    rfl
  · intro c hc hd
    obtain ⟨x, xs, hx⟩ := List.exists_cons_of_ne_nil (hcells c hc)
    have hdb : (c.dtype == DType.numericD) = true := by rw [hd]; rfl
    simp only [subtractRebaseCol, hdb, if_true, hx]
    simp

/-- Witness for C9 at the concrete frame `dfMixEx` (numeric column `A`,
text column `B`). -/
theorem c9_witness :
    GroupByPipedTransforms._execute dfMixEx (Value.num 0) none "subtract" =
      ({ dfMixEx with cols := dfMixEx.cols.map subtractRebaseCol }, none) ∧
    ∀ c ∈ dfMixEx.cols, c.dtype = DType.numericD →
      (subtractRebaseCol c).cells.headD Value.nan = Value.num 0 :=
  c9_subtract_zeroes_reference_row dfMixEx (by decide) (by decide) (by decide) (by decide)

theorem mapNameZipWith :
    ∀ (cs : List Column) (ns : List Value), ns.length = cs.length →
      (List.zipWith (fun c n => { c with name := n }) cs ns).map Column.name = ns
  | [], [], _ => rfl
  | [], _ :: _, h => by simp at h
  | _ :: _, [], h => by simp at h
  | c :: cs, n :: ns, h => by
    simp only [List.zipWith, List.map]
    exact congrArg (n :: ·) (mapNameZipWith cs ns (by simpa using h))

theorem setColumns_ok (df out : DataFrame) (names : List Value)
    (h : setColumns df names = .ok out) :
    out.cols.map Column.name = names := by
  simp only [setColumns] at h
  by_cases hl : (names.length == df.cols.length) = true
  · rw [if_pos hl] at h
    obtain rfl : _ = out := congrArg (getOkD · default) h
    exact mapNameZipWith df.cols names (by simpa using hl)
  · rw [if_neg hl] at h
    cases h

theorem setIndexLabels_ok (df out : DataFrame) (names : List Value)
    (h : setIndexLabels df names = .ok out) :
    out.index = names := by
  simp only [setIndexLabels] at h
  by_cases hl : (names.length == df.index.length) = true
  · rw [if_pos hl] at h
    obtain rfl : _ = out := congrArg (getOkD · default) h
    rfl
  · rw [if_neg hl] at h
    cases h

theorem concat_ok_relabeled (groups : List (Value × DataFrame))
    (fs : List (DataFrame → Except PdError DataFrame)) (mi sep : String)
    (axis : Nat) (out : DataFrame)
    (h : ((⟨PdObject.grouped groups, fs⟩ : GroupByPipedTransforms).concat mi sep axis).2 =
      .ok out) :
    ∃ c, GroupByPipedTransforms.relabelConcat c groups mi sep axis = .ok out := by
  simp only [GroupByPipedTransforms.concat, GroupByPipedTransforms._validatePipelineObject,
    GroupByPipedTransforms.pipeline] at h
  cases hm : mapExcept
      (fun g => GroupByPipedTransforms._pipeE fs g.2) groups with
  | error e => rw [hm] at h; cases h
  | ok tables =>
    rw [hm] at h
    dsimp only at h
    cases hp : pdConcat tables axis with
    | error e => rw [hp] at h; cases h
    | ok c =>
      rw [hp] at h
      dsimp only at h
      cases hr : GroupByPipedTransforms.relabelConcat c groups mi sep axis with
      | error e => rw [hr] at h; cases h
      | ok final =>
        rw [hr] at h
        cases h
        exact ⟨c, hr⟩

theorem multiIndexFromTuples_ok (ts ns : List Value)
    (h : multiIndexFromTuples ts = .ok ns) : ns = ts := by
  cases ts with
  | nil => cases h
  | cons t ts => cases h; rfl

theorem relabel_join1 (c : DataFrame) (groups : List (Value × DataFrame))
    (sep : String) (out : DataFrame)
    (h : GroupByPipedTransforms.relabelConcat c groups "join" sep 1 = .ok out) :
    out.cols.map Column.name = GroupByPipedTransforms.joinNamesCols groups sep :=
  setColumns_ok c out _ h

theorem relabel_hier1 (c : DataFrame) (groups : List (Value × DataFrame))
    (sep : String) (out : DataFrame)
    (h : GroupByPipedTransforms.relabelConcat c groups "hierarchy" sep 1 = .ok out) :
    out.cols.map Column.name = GroupByPipedTransforms.hierNamesCols groups := by
  have h' : (match multiIndexFromTuples (GroupByPipedTransforms.hierNamesCols groups) with
      | .error e => .error e
      | .ok names => setColumns c names) = Except.ok out := h
  cases ht : multiIndexFromTuples (GroupByPipedTransforms.hierNamesCols groups) with
  | error e => rw [ht] at h'; cases h'
  | ok names =>
    rw [ht] at h'
    dsimp only at h'
    rw [← multiIndexFromTuples_ok _ _ ht]
    exact setColumns_ok c out names h'

theorem relabel_join0 (c : DataFrame) (groups : List (Value × DataFrame))
    (sep : String) (out : DataFrame)
    (h : GroupByPipedTransforms.relabelConcat c groups "join" sep 0 = .ok out) :
    out.index = GroupByPipedTransforms.joinNamesIndex groups sep :=
  setIndexLabels_ok c out _ h

theorem relabel_hier0 (c : DataFrame) (groups : List (Value × DataFrame))
    (sep : String) (out : DataFrame)
    (h : GroupByPipedTransforms.relabelConcat c groups "hierarchy" sep 0 = .ok out) :
    out.index = GroupByPipedTransforms.hierNamesIndex groups := by
  have h' : (match multiIndexFromTuples (GroupByPipedTransforms.hierNamesIndex groups) with
      | .error e => .error e
      | .ok names => setIndexLabels c names) = Except.ok out := h
  cases ht : multiIndexFromTuples (GroupByPipedTransforms.hierNamesIndex groups) with
  | error e => rw [ht] at h'; cases h'
  | ok names =>
    rw [ht] at h'
    dsimp only at h'
    rw [← multiIndexFromTuples_ok _ _ ht]
    exact setIndexLabels_ok c out names h'

/-- C3: whenever `concat(multiIndex='join')` succeeds, the labels of the
relabeled axis are exactly the joined strings `str(L) ++ sep ++ str(G)` for
each original label `L` of each group `G`, in group iteration order
(`joinNamesCols` / `joinNamesIndex` are literally that flatten): column
labels for axis=1, row labels for axis=0. -/
theorem c3_concat_join_label_scheme (groups : List (Value × DataFrame))
    (fs : List (DataFrame → Except PdError DataFrame)) (sep : String) :
    (∀ out, ((⟨PdObject.grouped groups, fs⟩ : GroupByPipedTransforms).concat
        "join" sep 1).2 = .ok out →
      out.cols.map Column.name = GroupByPipedTransforms.joinNamesCols groups sep) ∧
    (∀ out, ((⟨PdObject.grouped groups, fs⟩ : GroupByPipedTransforms).concat
        "join" sep 0).2 = .ok out →
      out.index = GroupByPipedTransforms.joinNamesIndex groups sep) := by
  constructor
  · intro out h
    obtain ⟨c, hc⟩ := concat_ok_relabeled groups fs "join" sep 1 out h
    exact relabel_join1 c groups sep out hc
  · intro out h
    obtain ⟨c, hc⟩ := concat_ok_relabeled groups fs "join" sep 0 out h
    exact relabel_join0 c groups sep out hc

/-- Single-group example grouping: group key `"a"`, one numeric column `"A"`
over the index `[0, 1]`. -/
def dfAEx : DataFrame :=
  ⟨DType.numericD, [Value.num 0, Value.num 1],
    [⟨Value.str "A", DType.numericD, [Value.num 1, Value.num 2]⟩]⟩

def gEx : List (Value × DataFrame) := [(Value.str "a", dfAEx)]

/-- Wrapper around the example grouping with an empty pipeline. -/
def wGroupedEx : GroupByPipedTransforms := ⟨PdObject.grouped gEx, []⟩

/-- Witness for C3 at the concrete grouping `gEx` with separator `"|"`. -/
theorem c3_witness :
    (getOkD ((wGroupedEx.concat "join" "|" 1).2) default).cols.map Column.name =
      GroupByPipedTransforms.joinNamesCols gEx "|" ∧
    (getOkD ((wGroupedEx.concat "join" "|" 0).2) default).index =
      GroupByPipedTransforms.joinNamesIndex gEx "|" := by
  constructor
  · exact (c3_concat_join_label_scheme gEx [] "|").1
      (getOkD ((wGroupedEx.concat "join" "|" 1).2) default) (by decide)
  · exact (c3_concat_join_label_scheme gEx [] "|").2
      (getOkD ((wGroupedEx.concat "join" "|" 0).2) default) (by decide)

/-- C10: the labels `concat` assigns under the `join` and `hierarchy` modes
are computed by iterating the wrapped grouping a second time, so they are
functions of the original per-group frames only (`joinNamesCols`,
`hierNamesCols`, `joinNamesIndex`, `hierNamesIndex` mention only `groups`):
whatever pipeline `fs` produced the concatenated frames — including one that
changes a group's labels — a successful reassembly carries the pre-pipeline
labels. -/
theorem c10_concat_labels_from_original_groups (groups : List (Value × DataFrame))
    (fs : List (DataFrame → Except PdError DataFrame)) (sep : String) :
    (∀ out, ((⟨PdObject.grouped groups, fs⟩ : GroupByPipedTransforms).concat
        "join" sep 1).2 = .ok out →
      out.cols.map Column.name = GroupByPipedTransforms.joinNamesCols groups sep) ∧
    (∀ out, ((⟨PdObject.grouped groups, fs⟩ : GroupByPipedTransforms).concat
        "hierarchy" sep 1).2 = .ok out →
      out.cols.map Column.name = GroupByPipedTransforms.hierNamesCols groups) ∧
    (∀ out, ((⟨PdObject.grouped groups, fs⟩ : GroupByPipedTransforms).concat
        "join" sep 0).2 = .ok out →
      out.index = GroupByPipedTransforms.joinNamesIndex groups sep) ∧
    (∀ out, ((⟨PdObject.grouped groups, fs⟩ : GroupByPipedTransforms).concat
        "hierarchy" sep 0).2 = .ok out →
      out.index = GroupByPipedTransforms.hierNamesIndex groups) := by
  refine ⟨fun out h => ?_, fun out h => ?_, fun out h => ?_, fun out h => ?_⟩
  · obtain ⟨c, hc⟩ := concat_ok_relabeled groups fs "join" sep 1 out h
    exact relabel_join1 c groups sep out hc
  · obtain ⟨c, hc⟩ := concat_ok_relabeled groups fs "hierarchy" sep 1 out h
    exact relabel_hier1 c groups sep out hc
  · obtain ⟨c, hc⟩ := concat_ok_relabeled groups fs "join" sep 0 out h
    exact relabel_join0 c groups sep out hc
  · obtain ⟨c, hc⟩ := concat_ok_relabeled groups fs "hierarchy" sep 0 out h
    exact relabel_hier0 c groups sep out hc

/-- A pipeline step that renames every column of its group. -/
def renameStep : DataFrame → Except PdError DataFrame :=
  fun df => .ok { df with cols := df.cols.map (fun c => { c with name := Value.str "RENAMED" }) }

/-- Wrapper around the example grouping whose pipeline renames all columns. -/
def wRenameEx : GroupByPipedTransforms := ⟨PdObject.grouped gEx, [renameStep]⟩

/-- Witness for C10 at the concrete grouping `gEx` under the column-renaming
pipeline `[renameStep]`: the assigned labels are still derived from the
original group frames. -/
theorem c10_witness :
    (getOkD ((wRenameEx.concat "join" "|" 1).2) default).cols.map Column.name =
      GroupByPipedTransforms.joinNamesCols gEx "|" ∧
    (getOkD ((wRenameEx.concat "hierarchy" "|" 1).2) default).cols.map Column.name =
      GroupByPipedTransforms.hierNamesCols gEx ∧
    (getOkD ((wRenameEx.concat "join" "|" 0).2) default).index =
      GroupByPipedTransforms.joinNamesIndex gEx "|" ∧
    (getOkD ((wRenameEx.concat "hierarchy" "|" 0).2) default).index =
      GroupByPipedTransforms.hierNamesIndex gEx := by
  refine ⟨?_, ?_, ?_, ?_⟩
  · exact (c10_concat_labels_from_original_groups gEx [renameStep] "|").1
      (getOkD ((wRenameEx.concat "join" "|" 1).2) default) (by decide)
  · exact (c10_concat_labels_from_original_groups gEx [renameStep] "|").2.1
      (getOkD ((wRenameEx.concat "hierarchy" "|" 1).2) default) (by decide)
  · exact (c10_concat_labels_from_original_groups gEx [renameStep] "|").2.2.1
      (getOkD ((wRenameEx.concat "join" "|" 0).2) default) (by decide)
  · exact (c10_concat_labels_from_original_groups gEx [renameStep] "|").2.2.2
      (getOkD ((wRenameEx.concat "hierarchy" "|" 0).2) default) (by decide)

/-- C5: for every wrapper state and every `concat` invocation, a successful
reassembly leaves the accumulated pipeline cleared, while a reassembly that
raises at any point leaves the wrapper — pipeline included — exactly as it
was. -/
theorem c5_concat_clears_pipeline_only_on_success (w : GroupByPipedTransforms)
    (mi sep : String) (axis : Nat) :
    (isOkB ((w.concat mi sep axis).2) = true →
      ((w.concat mi sep axis).1)._pipedFunctions = []) ∧
    (∀ e, (w.concat mi sep axis).2 = .error e → (w.concat mi sep axis).1 = w) := by
  obtain ⟨obj, fs⟩ := w
  cases obj with
  | single df =>
    refine ⟨fun h => ?_, fun e he => rfl⟩
    exact absurd h (by simp [GroupByPipedTransforms.concat,
      GroupByPipedTransforms._validatePipelineObject, isOkB])
  | grouped groups =>
    have hred : (⟨PdObject.grouped groups, fs⟩ : GroupByPipedTransforms).concat mi sep axis =
        (match mapExcept (fun g => GroupByPipedTransforms._pipeE fs g.2) groups with
         | .error e => (⟨PdObject.grouped groups, fs⟩, .error e)
         | .ok tables =>
           match pdConcat tables axis with
           | .error e => (⟨PdObject.grouped groups, fs⟩, .error e)
           | .ok c =>
             match GroupByPipedTransforms.relabelConcat c groups mi sep axis with
             | .error e => (⟨PdObject.grouped groups, fs⟩, .error e)
             | .ok final => (⟨PdObject.grouped groups, []⟩, .ok final)) := rfl
    rw [hred]
    cases hm : mapExcept (fun g => GroupByPipedTransforms._pipeE fs g.2) groups with
    | error e =>
      refine ⟨fun h => absurd h (by simp [isOkB]), fun e' he' => rfl⟩
    | ok tables =>
      dsimp only
      cases hp : pdConcat tables axis with
      | error e =>
        refine ⟨fun h => absurd h (by simp [isOkB]), fun e' he' => rfl⟩
      | ok c =>
        dsimp only
        cases hr : GroupByPipedTransforms.relabelConcat c groups mi sep axis with
        | error e =>
          refine ⟨fun h => absurd h (by simp [isOkB]), fun e' he' => rfl⟩
        | ok final =>
          refine ⟨fun h => rfl, fun e' he' => ?_⟩
          exact absurd he' (by simp)

/-- Wrapper whose wrapped object is a plain frame (never grouped) but whose
pipeline is non-empty. -/
def wSinglePipeEx : GroupByPipedTransforms := ⟨PdObject.single dfTimeEx, [renameStep]⟩

/-- Witness for C5: a successful reassembly of `wRenameEx` (pipeline
`[renameStep]`) leaves the pipeline cleared; a failing reassembly of the
never-grouped `wSinglePipeEx` leaves the wrapper, pipeline included,
unchanged. -/
theorem c5_witness :
    ((wRenameEx.concat "join" "|" 1).1)._pipedFunctions = [] ∧
    (wSinglePipeEx.concat "join" "|" 1).1 = wSinglePipeEx := by
  constructor
  · exact (c5_concat_clears_pipeline_only_on_success wRenameEx "join" "|" 1).1 (by decide)
  · exact (c5_concat_clears_pipeline_only_on_success wSinglePipeEx "join" "|" 1).2
      (.typeError "A groupby operation has to be applied before a pipeline can be executed.")
      (by decide)

/-- C6: on a wrapper whose wrapped object is not currently a grouping, both
reassembly operations — `concat` and `toJSON` — return immediately with the
not-grouped `TypeError` raised by `_validatePipelineObject`, before any
per-group work: the wrapper state is returned untouched alongside the
error. -/
theorem c6_reassembly_requires_grouping (df : DataFrame)
    (fs : List (DataFrame → Except PdError DataFrame)) (mi sep fn rf : String)
    (axis : Nat) :
    (⟨PdObject.single df, fs⟩ : GroupByPipedTransforms).concat mi sep axis =
      (⟨PdObject.single df, fs⟩, .error (.typeError
        "A groupby operation has to be applied before a pipeline can be executed.")) ∧
    (⟨PdObject.single df, fs⟩ : GroupByPipedTransforms).toJSON fn rf sep axis =
      (⟨PdObject.single df, fs⟩, .error (.typeError
        "A groupby operation has to be applied before a pipeline can be executed.")) := by
  exact ⟨rfl, rfl⟩
